import Mathlib

/-!
Verification of the training/evaluation orchestrator in `main.py` of the
`upsegmentation` repository.

The source is shallowly embedded: Python dictionaries become finite maps
`String → Option Value`, the filesystem written by `torch.save` becomes a map
`String → Option Checkpoint`, batch losses and metric values become rationals,
and the side effects of `main` (telemetry calls, batch processing, checkpoint
writes, the final model write) become an explicit event trace.  A raised
Python exception becomes an `Option PyError` paired with the events emitted
before the raise.
-/

namespace Upseg

/-- One mask entry passed to `wandb.Image` in `test` (main.py lines 116-117):
the mask data (abstracted to the (batch index, image index) pair it was taken
from) together with its class-label vocabulary. -/
structure MaskEntry where
  mask_data : Nat × Nat
  class_labels : List (Nat × String)
deriving DecidableEq, Repr

/-- One visualization artifact built by `test` (main.py lines 112-121): the
input image (abstracted to its (batch index, image index) origin), the
predicted-mask and ground-truth-mask entries, and the caption string. -/
structure WandbImage where
  image : Nat × Nat
  predictions : MaskEntry
  ground_truth : MaskEntry
  caption : String
deriving DecidableEq, Repr

/-- A value stored in a per-epoch log dictionary: a scalar metric / loss, or
the list of visualization artifacts collected by `test`. -/
inductive Value where
  | num (q : ℚ)
  | imgs (l : List WandbImage)
deriving DecidableEq, Repr

end Upseg

namespace Upseg

/-- A Python dictionary with string keys, modelled as a finite partial map. -/
abbrev Dict : Type := String → Option Value

/-- The empty dictionary `{}`. -/
def emptyDict : Dict := fun _ => none

/-- `d[k] = v` on a Python dictionary. -/
def dset (d : Dict) (k : String) (v : Value) : Dict :=
  fun q => if q = k then some v else d q

/-- `d.update(e)` on Python dictionaries: keys of `e` win. -/
def dictUpdate (d e : Dict) : Dict :=
  fun q => (e q).orElse (fun _ => d q)

/-- The dictionary `{f"{p}{k}": v for k, v in d.items()}` (main.py lines
267-268).  Since prepending the fixed string `p` is injective on keys, the
comprehension is exactly this map: a key is bound iff it is `p` followed by a
key of `d`. -/
def prefixKeys (p : String) (d : Dict) : Dict :=
  fun q =>
    if p.data.isPrefixOf q.data then d (String.mk (q.data.drop p.data.length))
    else none

/-- Cumulative metric values returned by one `evaluation(yt, yp)` call.
Modelled from the spec: the `Evaluations` collaborator (module `evaluations`,
which is not part of the source tree) returns the current cumulative value of
each configured metric; `main` configures exactly `accuracy`, `precision`,
`recall`, `f1_score` (main.py lines 253-258). -/
structure Metrics where
  accuracy : ℚ
  precision : ℚ
  recallVal : ℚ
  f1_score : ℚ
deriving DecidableEq, Repr

/-- Modelled from the spec: the mapping returned by `evaluation(yt, yp)`,
keyed by the four configured metric names. -/
def evalResult (m : Metrics) : Dict := fun q =>
  if q = "accuracy" then some (Value.num m.accuracy)
  else if q = "precision" then some (Value.num m.precision)
  else if q = "recall" then some (Value.num m.recallVal)
  else if q = "f1_score" then some (Value.num m.f1_score)
  else none

/-- What one training batch contributes to the log: the scalar
`loss.item()` of that batch and the cumulative metric values the evaluation
returns after it. -/
structure TrainBatch where
  loss : ℚ
  metrics : Metrics
deriving DecidableEq, Repr

/-- The body of the batch loop of `train` (main.py lines 64-82), restricted
to its effect on `log_data`: add the batch loss to `log_data['loss']`, then
`log_data.update(evaluation(yt, yp))`. -/
def trainStepLog (d : Dict) (b : TrainBatch) : Dict :=
  let cur : ℚ := match d "loss" with
    | some (Value.num q) => q
    | _ => 0
  dictUpdate (dset d "loss" (Value.num (cur + b.loss))) (evalResult b.metrics)

/-- `train` (main.py lines 52-83), restricted to the returned `log_data`:
starting from `{'loss': 0.0}`, process the batches in sequence order. -/
def train (batches : List TrainBatch) : Dict :=
  batches.foldl trainStepLog (dset emptyDict "loss" (Value.num 0))

/-- What one test batch contributes: the number of samples `len(x)` in the
batch and the cumulative metrics after it. -/
structure TestBatch where
  size : Nat
  metrics : Metrics
deriving DecidableEq, Repr

/-- The class-label vocabulary of `test` (main.py line 90). -/
def class_labels : List (Nat × String) := [(0, "background"), (1, "border")]

/-- The `wandb.Image` built for sample `img_idx` of batch `batch_idx`
(main.py lines 112-121): input image with predicted and ground-truth masks,
both tagged with `class_labels`, and caption `f"Image {batch_idx + img_idx}"`. -/
def mkArtifact (batch_idx img_idx : Nat) : WandbImage :=
  { image := (batch_idx, img_idx)
    predictions := ⟨(batch_idx, img_idx), class_labels⟩
    ground_truth := ⟨(batch_idx, img_idx), class_labels⟩
    caption := "Image " ++ toString (batch_idx + img_idx) }

/-- The body of the batch loop of `test` (main.py lines 97-123): update
`log_data` with the evaluation result; if `batch_idx == 0`, append one
artifact per sample of the batch to `predictions`. -/
def testStep (acc : Dict × List WandbImage) (bi : Nat × TestBatch) :
    Dict × List WandbImage :=
  let log := dictUpdate acc.1 (evalResult bi.2.metrics)
  let preds :=
    if bi.1 = 0 then acc.2 ++ (List.range bi.2.size).map (mkArtifact bi.1)
    else acc.2
  (log, preds)

/-- `test` (main.py lines 86-125), restricted to the returned `log_data`:
process the batches with their indices, then store the collected artifact
list under `log_data['prediction']`. -/
def test (batches : List TestBatch) : Dict :=
  let r := batches.enum.foldl testStep (emptyDict, [])
  dset r.1 "prediction" (Value.imgs r.2)

/-- The artifacts `test` collects: one per sample of the batch at index 0,
none from later batches. -/
def testArtifacts (batches : List TestBatch) : List WandbImage :=
  match batches with
  | [] => []
  | b :: _ => (List.range b.size).map (mkArtifact 0)

/-- The merged per-epoch record of `main` (main.py lines 262-268):
`log_data = {}`, then update with the `train_`-prefixed train log, then with
the `test_`-prefixed test log. -/
def epochLogRecord (trainBs : List TrainBatch) (testBs : List TestBatch) : Dict :=
  dictUpdate (dictUpdate emptyDict (prefixKeys "train_" (train trainBs)))
    (prefixKeys "test_" (test testBs))

end Upseg

namespace Upseg

/-- The object serialized by `save_checkpoint` (main.py lines 29-33). Model
and optimizer state dictionaries are abstracted to their flat lists of
numeric entries. -/
structure Checkpoint where
  epoch : Nat
  model_state_dict : List ℚ
  optimizer_state_dict : List ℚ
deriving DecidableEq, Repr

/-- The filesystem that `torch.save` writes checkpoint files into. -/
abbrev CheckpointFS : Type := String → Option Checkpoint

/-- `save_checkpoint` (main.py lines 23-36): serialize
`{'epoch': epoch, 'model_state_dict': ..., 'optimizer_state_dict': ...}`
to the file `path / f"{name}.pth"`. -/
def save_checkpoint (model optimizer : List ℚ) (epoch : Nat)
    (path name : String) (fs : CheckpointFS) : CheckpointFS :=
  fun f => if f = path ++ "/" ++ name ++ ".pth" then some ⟨epoch, model, optimizer⟩ else fs f

/-- `load_checkpoint` (main.py lines 39-49): read `path / f"{name}.pth"`,
restore the model and optimizer state from it, and return the stored epoch.
The restored states are returned explicitly; a missing file is `none`
(in Python, `torch.load` raises). -/
def load_checkpoint (path name : String) (fs : CheckpointFS) :
    Option (List ℚ × List ℚ × Nat) :=
  (fs (path ++ "/" ++ name ++ ".pth")).map fun c =>
    (c.model_state_dict, c.optimizer_state_dict, c.epoch)

/-- The loss module selected by `main`. -/
inductive Criterion where
  | bceWithLogits
  | crossEntropy (weight : List ℚ)
deriving DecidableEq, Repr

/-- Criterion selection (main.py lines 248-251): `nn.BCEWithLogitsLoss()`
when `balance_classes is None`, else `nn.CrossEntropyLoss` with weight
`torch.tensor(balance_classes) / sum(balance_classes)`. -/
def makeCriterion (balance_classes : Option (ℚ × ℚ)) : Criterion :=
  match balance_classes with
  | none => Criterion.bceWithLogits
  | some (w0, w1) => Criterion.crossEntropy [w0 / (w0 + w1), w1 / (w0 + w1)]

end Upseg

namespace Upseg

/-- The configuration arguments of `main` (main.py lines 156-172) that drive
its control flow. -/
structure Config where
  epochs : Nat
  model_name : String
  block_type : String
  dataset_path : String
  in_size : Nat
  scale : Nat
  optimizer : String
  balance_classes : Option (ℚ × ℚ)
  checkpoint_epoch : Option Nat
  save_path : Option String
deriving DecidableEq, Repr

/-- An uncaught Python exception: its class name and its message. -/
structure PyError where
  kind : String
  msg : String
deriving DecidableEq, Repr

/-- The observable side effects of one `main` run, in chronological order. -/
inductive Event where
  | telemetryLogin                                     -- wandb.login(), line 178
  | telemetryInit                                      -- wandb.init(...), lines 182-198
  | mkdirSave (p : String)                             -- save_path.mkdir(...), line 206
  | trainBatch (epoch idx : Nat)                       -- one optimization step inside train
  | testBatch (epoch idx : Nat)                        -- one inference step inside test
  | checkpointSave (dir file : String) (epoch : Nat)   -- torch.save inside save_checkpoint
  | telemetryLog (epoch : Nat)                         -- wandb.log(log_data), line 275
  | finalModelSave (dir file : String)                 -- torch.save(model.state_dict(), ...), line 278
  | telemetryFinish                                    -- wandb.finish(), line 280
deriving DecidableEq, Repr

/-- `pathlib`'s `/` operator, on string paths. -/
def pathJoin (a b : String) : String := a ++ "/" ++ b

/-- `dataset_path / "train" / str(in_size)` (main.py line 226). -/
def trainDatasetPath (cfg : Config) : String :=
  pathJoin (pathJoin cfg.dataset_path "train") (toString cfg.in_size)

/-- `dataset_path / "test" / str(in_size * scale)` (main.py line 227). -/
def testDatasetPath (cfg : Config) : String :=
  pathJoin (pathJoin cfg.dataset_path "test") (toString (cfg.in_size * cfg.scale))

/-- Python's `f"{n:04d}"`: decimal digits left-padded with zeros to width 4. -/
def padZeros4 (n : Nat) : String :=
  let s := toString n
  if s.length < 4 then String.mk (List.replicate (4 - s.length) '0') ++ s else s

/-- The checkpoint name `main` passes to `save_checkpoint`:
`f"{model_name}-checkpoint-{epoch:04d}.pth"` (main.py line 273). -/
def checkpointName (model_name : String) (epoch : Nat) : String :=
  model_name ++ "-checkpoint-" ++ padZeros4 epoch ++ ".pth"

/-- The file name actually written for that name: `save_checkpoint` appends
one more `.pth` (main.py line 33). -/
def checkpointFile (model_name : String) (epoch : Nat) : String :=
  checkpointName model_name epoch ++ ".pth"

/-- Save-path resolution (main.py lines 200-203): when no `--save-path` was
given and the telemetry run object exists, use the telemetry run directory. -/
def resolveSavePath (save_path : Option String) (wandbRun : Option String) : Option String :=
  match save_path, wandbRun with
  | none, some d => some d
  | sp, _ => sp

/-- The events of one iteration of the epoch loop (main.py lines 261-275):
the train phase over all training batches, the test phase over all test
batches, the conditional periodic checkpoint (line 272-273), then the
telemetry log call (line 275). -/
def epochEvents (cfg : Config) (save_path : Option String)
    (nTrain nTest epoch : Nat) : List Event :=
  ((List.range nTrain).map (Event.trainBatch epoch)) ++
  ((List.range nTest).map (Event.testBatch epoch)) ++
  (match save_path, cfg.checkpoint_epoch with
   | some p, some k =>
     if epoch % k == k - 1 then
       [Event.checkpointSave p (checkpointFile cfg.model_name epoch) epoch]
     else []
   | _, _ => []) ++
  [Event.telemetryLog epoch]

/-- The events preceding all configuration checks (main.py lines 178-206):
the telemetry login and initialization calls and the save-directory
creation. -/
def preEvents (save_path : Option String) : List Event :=
  [Event.telemetryLogin, Event.telemetryInit] ++
    (match save_path with | some p => [Event.mkdirSave p] | none => [])

/-- The events after the epoch loop (main.py lines 277-280): the final model
save (when a save path exists) and the telemetry `finish` call. -/
def finEvents (model_name : String) (save_path : Option String) : List Event :=
  (match save_path with
   | some p => [Event.finalModelSave p (model_name ++ ".pth")]
   | none => []) ++ [Event.telemetryFinish]

/-- `main` (main.py lines 156-280) as an event trace.  `fs` is the set of
existing directories, `wandbRun` the telemetry run directory (`none` when
telemetry is disabled), `nTrain`/`nTest` the number of batches the two data
loaders yield.  Returns the events emitted before `main` returns or raises,
together with the raised exception, if any.  The guards appear in source
order: model selection (lines 218-222), dataset-directory checks (lines
226-233), optimizer selection (lines 243-246), then the epoch loop, the
final model save (lines 277-278) and `wandb.finish()` (line 280). -/
def main (cfg : Config) (fs : List String) (wandbRun : Option String)
    (nTrain nTest : Nat) : List Event × Option PyError :=
  let save_path := resolveSavePath cfg.save_path wandbRun
  let pre := preEvents save_path
  if cfg.model_name = "runet" then
    if trainDatasetPath cfg ∈ fs then
      if testDatasetPath cfg ∈ fs then
        if cfg.optimizer = "adam" then
          let body := (List.range cfg.epochs).flatMap (epochEvents cfg save_path nTrain nTest)
          (pre ++ body ++ finEvents cfg.model_name save_path, none)
        else (pre, some ⟨"ValueError", ""⟩)
      else
        (pre, some ⟨"Exception",
          pathJoin "test" (toString (cfg.in_size * cfg.scale)) ++ " does not exist."⟩)
    else
      (pre, some ⟨"Exception",
        pathJoin "train" (toString cfg.in_size) ++ " does not exist."⟩)
  else (pre, some ⟨"ValueError", ""⟩)

/-- Does this event process a batch (a train or test step)? -/
def isBatchEvent : Event → Bool
  | .trainBatch _ _ => true
  | .testBatch _ _ => true
  | _ => false

/-- Is this event a checkpoint write? -/
def isCheckpointSaveEvent : Event → Bool
  | .checkpointSave _ _ _ => true
  | _ => false

/-- Is this event a per-epoch telemetry log call? -/
def isTelemetryLogEvent : Event → Bool
  | .telemetryLog _ => true
  | _ => false

end Upseg

namespace Upseg

/-- A well-formed sample configuration: known model and optimizer, dataset
`data` with `in_size = 2`, `scale = 3`, one epoch, explicit save path. -/
def cfgBase : Config :=
  { epochs := 1, model_name := "runet", block_type := "resnet",
    dataset_path := "data", in_size := 2, scale := 3, optimizer := "adam",
    balance_classes := none, checkpoint_epoch := none, save_path := some "out" }

/-- A filesystem holding both dataset subdirectories `cfgBase` needs. -/
def dirsBase : List String := [trainDatasetPath cfgBase, testDatasetPath cfgBase]

/-- A sample metric summary. -/
def mEx : Metrics := ⟨1, 1, 1, 1⟩

end Upseg

namespace Upseg

lemma evalResult_ne (m : Metrics) (k : String) (h1 : k ≠ "accuracy")
    (h2 : k ≠ "precision") (h3 : k ≠ "recall") (h4 : k ≠ "f1_score") :
    evalResult m k = none := by
  simp [evalResult, h1, h2, h3, h4]

lemma evalResult_loss (m : Metrics) : evalResult m "loss" = none := by
  refine evalResult_ne m _ ?_ ?_ ?_ ?_ <;> decide

lemma dset_self (d : Dict) (k : String) (v : Value) : dset d k v k = some v := by
  simp [dset]

lemma trainfold_loss (bs : List TrainBatch) :
    ∀ (d : Dict) (q : ℚ), d "loss" = some (Value.num q) →
      (bs.foldl trainStepLog d) "loss" =
        some (Value.num (q + (bs.map TrainBatch.loss).sum)) := by
  induction bs with
  | nil => intro d q h; simpa using h
  | cons b t ih =>
    intro d q h
    rw [List.foldl_cons]
    have hstep : (trainStepLog d b) "loss" = some (Value.num (q + b.loss)) := by
      simp [trainStepLog, h, dictUpdate, evalResult_loss, dset, Option.orElse]
    rw [ih _ _ hstep]
    simp [add_assoc]

/-- C5: the `loss` entry of the summary `train` returns is the sum of the
individual batch losses, accumulated from `0.0` in sequence order, and the
merged epoch record binds `train_loss` to exactly that sum. -/
theorem train_loss_is_sum (trainBs : List TrainBatch) (testBs : List TestBatch) :
    train trainBs "loss" = some (Value.num ((trainBs.map TrainBatch.loss).sum)) ∧
    epochLogRecord trainBs testBs "train_loss" =
      some (Value.num ((trainBs.map TrainBatch.loss).sum)) := by
  have h1 : train trainBs "loss" =
      some (Value.num ((trainBs.map TrainBatch.loss).sum)) := by
    have h0 : (dset emptyDict "loss" (Value.num 0)) "loss" = some (Value.num 0) :=
      dset_self _ _ _
    have := trainfold_loss trainBs _ 0 h0
    simpa [train] using this
  refine ⟨h1, ?_⟩
  have hp1 : ("test_".data.isPrefixOf "train_loss".data) = false := by decide
  have hp2 : ("train_".data.isPrefixOf "train_loss".data) = true := by decide
  have hdrop : String.mk ("train_loss".data.drop "train_".data.length) = "loss" := by
    decide
  simp [epochLogRecord, dictUpdate, prefixKeys, hp1, hp2, hdrop, h1, Option.orElse]

/-- C5 witness: a two-batch training set with losses 3 and 4 sums to 7. -/
theorem train_loss_is_sum_witness :
    train [⟨3, mEx⟩, ⟨4, mEx⟩] "loss" = some (Value.num 7) ∧
    epochLogRecord [⟨3, mEx⟩, ⟨4, mEx⟩] [⟨1, mEx⟩] "train_loss" = some (Value.num 7) := by
  have h := train_loss_is_sum [⟨3, mEx⟩, ⟨4, mEx⟩] [⟨1, mEx⟩]
  simpa [show (3 : ℚ) + 4 = 7 by norm_num] using h

end Upseg

namespace Upseg

lemma testStep_snd_of_ne (acc : Dict × List WandbImage) (n : Nat) (b : TestBatch)
    (hn : n ≠ 0) : (testStep acc (n, b)).2 = acc.2 := by
  simp [testStep, hn]

lemma testfold_preds (l : List TestBatch) :
    ∀ (n : Nat), n ≠ 0 → ∀ (acc : Dict × List WandbImage),
      ((List.enumFrom n l).foldl testStep acc).2 = acc.2 := by
  induction l with
  | nil => intro n _ acc; simp
  | cons b t ih =>
    intro n hn acc
    rw [List.enumFrom_cons, List.foldl_cons]
    rw [ih (n + 1) (by omega)]
    exact testStep_snd_of_ne acc n b hn

lemma testfold_apply (k : String) (h1 : k ≠ "accuracy") (h2 : k ≠ "precision")
    (h3 : k ≠ "recall") (h4 : k ≠ "f1_score") (l : List TestBatch) :
    ∀ (n : Nat) (acc : Dict × List WandbImage),
      ((List.enumFrom n l).foldl testStep acc).1 k = acc.1 k := by
  induction l with
  | nil => intro n acc; simp
  | cons b t ih =>
    intro n acc
    rw [List.enumFrom_cons, List.foldl_cons, ih]
    simp [testStep, dictUpdate, evalResult_ne _ k h1 h2 h3 h4, Option.orElse]

lemma test_prediction_eq (bs : List TestBatch) :
    test bs "prediction" = some (Value.imgs (testArtifacts bs)) := by
  cases bs with
  | nil => simp [test, testArtifacts, List.enum, dset]
  | cons b t =>
    have henum : (b :: t).enum = (0, b) :: List.enumFrom 1 t := by
      simp [List.enum, List.enumFrom_cons]
    simp only [test, henum, List.foldl_cons]
    rw [dset_self]
    rw [testfold_preds t 1 (by omega)]
    simp [testStep, testArtifacts]

end Upseg

namespace Upseg

/-- C7: in a test phase, artifacts (input image plus predicted and
ground-truth masks, each carrying the vocabulary {0: background, 1: border})
are captured exactly for the samples of the batch at index 0 — one per sample
of that batch, none from the later batches `rest` — and the whole list is
returned under the `prediction` key of the phase result. -/
theorem test_artifacts_first_batch_only (b : TestBatch) (rest : List TestBatch) :
    test (b :: rest) "prediction" =
      some (Value.imgs ((List.range b.size).map (mkArtifact 0))) ∧
    (∀ i : Nat, (mkArtifact 0 i).predictions.class_labels = class_labels ∧
      (mkArtifact 0 i).ground_truth.class_labels = class_labels ∧
      (mkArtifact 0 i).image.1 = 0 ∧
      (mkArtifact 0 i).predictions.mask_data.1 = 0 ∧
      (mkArtifact 0 i).ground_truth.mask_data.1 = 0) := by
  refine ⟨?_, fun i => ⟨rfl, rfl, rfl, rfl, rfl⟩⟩
  simpa [testArtifacts] using test_prediction_eq (b :: rest)

/-- C9: every test phase, including one over zero batches, returns a result
binding the `prediction` key to the (possibly empty) list of captured
artifacts, so the merged epoch record always has a `test_prediction` entry. -/
theorem test_prediction_always_bound (trainBs : List TrainBatch) (testBs : List TestBatch) :
    test testBs "prediction" = some (Value.imgs (testArtifacts testBs)) ∧
    test ([] : List TestBatch) "prediction" = some (Value.imgs []) ∧
    epochLogRecord trainBs testBs "test_prediction" =
      some (Value.imgs (testArtifacts testBs)) := by
  refine ⟨test_prediction_eq testBs, by simpa using test_prediction_eq [], ?_⟩
  have hp : ("test_".data.isPrefixOf "test_prediction".data) = true := by decide
  have hdrop : String.mk ("test_prediction".data.drop "test_".data.length) = "prediction" := by
    decide
  simp [epochLogRecord, dictUpdate, prefixKeys, hp, hdrop, Option.orElse,
    test_prediction_eq testBs]

/-- C2: loading a checkpoint just saved under the same path and name returns
the saved epoch and restores model parameters and optimizer state to the
values that were saved. -/
theorem checkpoint_round_trip (m o : List ℚ) (e : Nat) (p n : String)
    (fs : CheckpointFS) :
    load_checkpoint p n (save_checkpoint m o e p n fs) = some (m, o, e) := by
  simp [load_checkpoint, save_checkpoint]

/-- C4: with `balance_classes` unset the configured loss is binary
cross-entropy with logits; with weights `(w0, w1)` (of nonzero sum, as in any
meaningful configuration) it is cross-entropy weighted by
`(w0/(w0+w1), w1/(w0+w1))`; for `(1, 3)` that is `(1/4, 3/4)`. -/
theorem loss_selection (w0 w1 : ℚ) (h : w0 + w1 ≠ 0) :
    makeCriterion none = Criterion.bceWithLogits ∧
    makeCriterion (some (w0, w1)) =
      Criterion.crossEntropy [w0 / (w0 + w1), w1 / (w0 + w1)] ∧
    makeCriterion (some (1, 3)) = Criterion.crossEntropy [1/4, 3/4] := by
  refine ⟨rfl, rfl, ?_⟩
  simp [makeCriterion]
  norm_num

/-- C4 witness: instantiated at the balance weights `(1, 3)`. -/
theorem loss_selection_witness :
    ((1 : ℚ) + 3 ≠ 0) ∧
    (makeCriterion none = Criterion.bceWithLogits ∧
      makeCriterion (some (1, 3)) =
        Criterion.crossEntropy [1 / ((1 : ℚ) + 3), 3 / ((1 : ℚ) + 3)] ∧
      makeCriterion (some (1, 3)) = Criterion.crossEntropy [1/4, 3/4]) :=
  ⟨by norm_num, loss_selection 1 3 (by norm_num)⟩

end Upseg

namespace Upseg

lemma mem_epochEvents_checkpointSave (cfg : Config) (sp : Option String)
    (nTr nTe ep : Nat) (p f : String) (e : Nat) :
    Event.checkpointSave p f e ∈ epochEvents cfg sp nTr nTe ep ↔
      (sp = some p ∧ ∃ k, cfg.checkpoint_epoch = some k ∧ ep % k = k - 1 ∧
        e = ep ∧ f = checkpointFile cfg.model_name ep) := by
  unfold epochEvents
  rcases sp with _ | p' <;> rcases hck : cfg.checkpoint_epoch with _ | k
  · simp
  · simp
  · simp
  · by_cases hm : ep % k = k - 1
    · simp [hm, and_assoc, eq_comm]
      tauto
    · simp [hm]

end Upseg

namespace Upseg

lemma mem_preEvents (sp : Option String) (ev : Event) (h : ev ∈ preEvents sp) :
    isBatchEvent ev = false ∧ isCheckpointSaveEvent ev = false ∧
    isTelemetryLogEvent ev = false ∧ ev ≠ Event.telemetryFinish := by
  rcases sp with _ | p <;> simp [preEvents] at h
  · rcases h with h | h <;> subst h <;> exact ⟨rfl, rfl, rfl, by simp⟩
  · rcases h with h | h | h <;> subst h <;> exact ⟨rfl, rfl, rfl, by simp⟩

lemma main_error_trace (cfg : Config) (fs : List String) (wandbRun : Option String)
    (nTrain nTest : Nat) (err : PyError)
    (h : (main cfg fs wandbRun nTrain nTest).2 = some err) :
    (main cfg fs wandbRun nTrain nTest).1 =
      preEvents (resolveSavePath cfg.save_path wandbRun) := by
  unfold main at h ⊢
  by_cases h1 : cfg.model_name = "runet" <;> simp [h1] at h ⊢
  by_cases h2 : trainDatasetPath cfg ∈ fs <;> simp [h2] at h ⊢
  by_cases h3 : testDatasetPath cfg ∈ fs <;> simp [h3] at h ⊢
  by_cases h4 : cfg.optimizer = "adam" <;> simp [h4] at h ⊢

lemma main_success_trace (cfg : Config) (fs : List String)
    (wandbRun : Option String) (nTrain nTest : Nat)
    (h1 : cfg.model_name = "runet") (h2 : trainDatasetPath cfg ∈ fs)
    (h3 : testDatasetPath cfg ∈ fs) (h4 : cfg.optimizer = "adam") :
    main cfg fs wandbRun nTrain nTest =
      (preEvents (resolveSavePath cfg.save_path wandbRun) ++
        (List.range cfg.epochs).flatMap
          (epochEvents cfg (resolveSavePath cfg.save_path wandbRun) nTrain nTest) ++
        finEvents cfg.model_name (resolveSavePath cfg.save_path wandbRun), none) := by
  simp [main, h1, h2, h3, h4]

lemma main_failed_trace (cfg : Config) (fs : List String)
    (wandbRun : Option String) (nTrain nTest : Nat)
    (h : ¬(cfg.model_name = "runet" ∧ trainDatasetPath cfg ∈ fs ∧
      testDatasetPath cfg ∈ fs ∧ cfg.optimizer = "adam")) :
    (main cfg fs wandbRun nTrain nTest).1 =
      preEvents (resolveSavePath cfg.save_path wandbRun) ∧
    ((main cfg fs wandbRun nTrain nTest).2).isSome = true := by
  by_cases h1 : cfg.model_name = "runet"
  swap
  · simp [main, h1]
  by_cases h2 : trainDatasetPath cfg ∈ fs
  swap
  · simp [main, h1, h2]
  by_cases h3 : testDatasetPath cfg ∈ fs
  swap
  · simp [main, h1, h2, h3]
  by_cases h4 : cfg.optimizer = "adam"
  swap
  · simp [main, h1, h2, h3, h4]
  exact absurd ⟨h1, h2, h3, h4⟩ h

lemma checkpointSave_mem_main (cfg : Config) (fs : List String)
    (wandbRun : Option String) (nTrain nTest : Nat) (p f : String) (e : Nat) :
    Event.checkpointSave p f e ∈ (main cfg fs wandbRun nTrain nTest).1 ↔
      (cfg.model_name = "runet" ∧ trainDatasetPath cfg ∈ fs ∧
       testDatasetPath cfg ∈ fs ∧ cfg.optimizer = "adam" ∧ e < cfg.epochs ∧
       resolveSavePath cfg.save_path wandbRun = some p ∧
       (∃ k, cfg.checkpoint_epoch = some k ∧ e % k = k - 1) ∧
       f = checkpointFile cfg.model_name e) := by
  have hpre : Event.checkpointSave p f e ∉
      preEvents (resolveSavePath cfg.save_path wandbRun) := by
    intro hmem
    have := (mem_preEvents _ _ hmem).2.1
    simp [isCheckpointSaveEvent] at this
  have hfin : Event.checkpointSave p f e ∉
      finEvents cfg.model_name (resolveSavePath cfg.save_path wandbRun) := by
    rcases resolveSavePath cfg.save_path wandbRun with _ | q <;> simp [finEvents]
  by_cases hc : cfg.model_name = "runet" ∧ trainDatasetPath cfg ∈ fs ∧
      testDatasetPath cfg ∈ fs ∧ cfg.optimizer = "adam"
  · obtain ⟨h1, h2, h3, h4⟩ := hc
    rw [main_success_trace cfg fs wandbRun nTrain nTest h1 h2 h3 h4]
    constructor
    · intro hm
      rcases List.mem_append.1 hm with hm' | hm'
      swap
      · exact absurd hm' hfin
      rcases List.mem_append.1 hm' with hm'' | hbody
      · exact absurd hm'' hpre
      rcases List.mem_flatMap.1 hbody with ⟨ep, hep, hin⟩
      rcases (mem_epochEvents_checkpointSave cfg _ nTrain nTest ep p f e).1 hin with
        ⟨hsp, k, hk, hmod, hee, hf⟩
      subst hee
      exact ⟨h1, h2, h3, h4, List.mem_range.1 hep, hsp, ⟨k, hk, hmod⟩, hf⟩
    · rintro ⟨-, -, -, -, he, hsp, ⟨k, hk, hmod⟩, hf⟩
      refine List.mem_append.2 (Or.inl (List.mem_append.2 (Or.inr ?_)))
      exact List.mem_flatMap.2 ⟨e, List.mem_range.2 he,
        (mem_epochEvents_checkpointSave cfg _ nTrain nTest e p f e).2
          ⟨hsp, k, hk, hmod, rfl, hf⟩⟩
  · have hft := main_failed_trace cfg fs wandbRun nTrain nTest hc
    constructor
    · intro hm
      rw [hft.1] at hm
      exact absurd hm hpre
    · rintro ⟨h1, h2, h3, h4, -⟩
      exact absurd ⟨h1, h2, h3, h4⟩ hc

end Upseg

namespace Upseg

/-- C3: a periodic checkpoint is saved for epoch `e` iff a checkpoint
interval `k` is configured, a (resolved) save path exists and
`e % k = k - 1` (and `e` is actually run); with the interval unset no
checkpoint is ever written; with an interval of at least 2 no checkpoint is
written for epoch 0. -/
theorem checkpoint_cadence (cfg : Config) (fs : List String)
    (wandbRun : Option String) (nTrain nTest : Nat)
    (h1 : cfg.model_name = "runet") (h2 : trainDatasetPath cfg ∈ fs)
    (h3 : testDatasetPath cfg ∈ fs) (h4 : cfg.optimizer = "adam") :
    (∀ k e, cfg.checkpoint_epoch = some k → 1 ≤ k →
      ((∃ p f, Event.checkpointSave p f e ∈ (main cfg fs wandbRun nTrain nTest).1) ↔
        (e < cfg.epochs ∧ (resolveSavePath cfg.save_path wandbRun).isSome = true ∧
          e % k = k - 1))) ∧
    (cfg.checkpoint_epoch = none →
      ∀ p f e, Event.checkpointSave p f e ∉ (main cfg fs wandbRun nTrain nTest).1) ∧
    (∀ k, cfg.checkpoint_epoch = some k → 2 ≤ k →
      ∀ p f, Event.checkpointSave p f 0 ∉ (main cfg fs wandbRun nTrain nTest).1) := by
  refine ⟨?_, ?_, ?_⟩
  · intro k e hk hk1
    constructor
    · rintro ⟨p, f, hm⟩
      rcases (checkpointSave_mem_main cfg fs wandbRun nTrain nTest p f e).1 hm with
        ⟨-, -, -, -, he, hsp, ⟨k', hk', hmod⟩, -⟩
      rw [hk] at hk'
      injection hk' with hkk
      subst hkk
      exact ⟨he, by simp [hsp], hmod⟩
    · rintro ⟨he, hsome, hmod⟩
      rcases Option.isSome_iff_exists.1 hsome with ⟨p, hp⟩
      refine ⟨p, checkpointFile cfg.model_name e, ?_⟩
      exact (checkpointSave_mem_main cfg fs wandbRun nTrain nTest p _ e).2
        ⟨h1, h2, h3, h4, he, hp, ⟨k, hk, hmod⟩, rfl⟩
  · intro hnone p f e hm
    rcases (checkpointSave_mem_main cfg fs wandbRun nTrain nTest p f e).1 hm with
      ⟨-, -, -, -, -, -, ⟨k, hk, -⟩, -⟩
    rw [hnone] at hk
    exact Option.noConfusion hk
  · intro k hk hk2 p f hm
    rcases (checkpointSave_mem_main cfg fs wandbRun nTrain nTest p f 0).1 hm with
      ⟨-, -, -, -, -, -, ⟨k', hk', hmod⟩, -⟩
    rw [hk] at hk'
    injection hk' with hkk
    subst hkk
    rw [Nat.zero_mod] at hmod
    omega

/-- C3 witness: interval 2 over 4 epochs on a valid configuration. -/
theorem checkpoint_cadence_witness :
    ({ cfgBase with checkpoint_epoch := some 2, epochs := 4 } : Config).model_name = "runet" ∧
    ((∀ k e, ({ cfgBase with checkpoint_epoch := some 2, epochs := 4 } : Config).checkpoint_epoch = some k → 1 ≤ k →
      ((∃ p f, Event.checkpointSave p f e ∈
          (main { cfgBase with checkpoint_epoch := some 2, epochs := 4 } dirsBase none 1 1).1) ↔
        (e < ({ cfgBase with checkpoint_epoch := some 2, epochs := 4 } : Config).epochs ∧
          (resolveSavePath ({ cfgBase with checkpoint_epoch := some 2, epochs := 4 } : Config).save_path none).isSome = true ∧
          e % k = k - 1))) ∧
    (({ cfgBase with checkpoint_epoch := some 2, epochs := 4 } : Config).checkpoint_epoch = none →
      ∀ p f e, Event.checkpointSave p f e ∉
        (main { cfgBase with checkpoint_epoch := some 2, epochs := 4 } dirsBase none 1 1).1) ∧
    (∀ k, ({ cfgBase with checkpoint_epoch := some 2, epochs := 4 } : Config).checkpoint_epoch = some k → 2 ≤ k →
      ∀ p f, Event.checkpointSave p f 0 ∉
        (main { cfgBase with checkpoint_epoch := some 2, epochs := 4 } dirsBase none 1 1).1)) :=
  ⟨by decide, checkpoint_cadence { cfgBase with checkpoint_epoch := some 2, epochs := 4 }
    dirsBase none 1 1 (by decide) (by decide) (by decide) (by decide)⟩

end Upseg

namespace Upseg

/-- C8: whenever the orchestrator writes a periodic checkpoint for epoch `e`,
the file name is `{model_name}-checkpoint-{epoch:04d}.pth.pth` — the name
passed by the orchestrator already ends in `.pth` and `save_checkpoint`
appends `.pth` again — which differs both from the single-extension name and
from the final model artifact `{model_name}.pth`. -/
theorem checkpoint_file_double_pth (cfg : Config) (fs : List String)
    (wandbRun : Option String) (nTrain nTest : Nat) (p f : String) (e : Nat)
    (h : Event.checkpointSave p f e ∈ (main cfg fs wandbRun nTrain nTest).1) :
    f = cfg.model_name ++ "-checkpoint-" ++ padZeros4 e ++ ".pth.pth" ∧
    f ≠ cfg.model_name ++ "-checkpoint-" ++ padZeros4 e ++ ".pth" ∧
    f ≠ cfg.model_name ++ ".pth" := by
  have hf := ((checkpointSave_mem_main cfg fs wandbRun nTrain nTest p f e).1 h).2.2.2.2.2.2.2
  subst hf
  have l1 : (".pth" : String).length = 4 := by decide
  have l2 : (".pth.pth" : String).length = 8 := by decide
  have l3 : ("-checkpoint-" : String).length = 12 := by decide
  refine ⟨?_, ?_, ?_⟩
  · show checkpointName cfg.model_name e ++ ".pth" = _
    unfold checkpointName
    rw [String.append_assoc (cfg.model_name ++ "-checkpoint-" ++ padZeros4 e) ".pth" ".pth"]
    rfl
  · intro hEq
    have hl := congrArg String.length hEq
    simp only [checkpointFile, checkpointName, String.length_append, l1, l2, l3] at hl
    omega
  · intro hEq
    have hl := congrArg String.length hEq
    simp only [checkpointFile, checkpointName, String.length_append, l1, l2, l3] at hl
    omega

/-- C8 witness: with interval 1 and one epoch, the checkpoint written for
epoch 0 is `runet-checkpoint-0000.pth.pth`. -/
theorem checkpoint_file_double_pth_witness :
    Event.checkpointSave "out" "runet-checkpoint-0000.pth.pth" 0 ∈
      (main { cfgBase with checkpoint_epoch := some 1 } dirsBase none 1 1).1 ∧
    ("runet-checkpoint-0000.pth.pth" =
      ({ cfgBase with checkpoint_epoch := some 1 } : Config).model_name ++
        "-checkpoint-" ++ padZeros4 0 ++ ".pth.pth" ∧
     "runet-checkpoint-0000.pth.pth" ≠
      ({ cfgBase with checkpoint_epoch := some 1 } : Config).model_name ++
        "-checkpoint-" ++ padZeros4 0 ++ ".pth" ∧
     "runet-checkpoint-0000.pth.pth" ≠
      ({ cfgBase with checkpoint_epoch := some 1 } : Config).model_name ++ ".pth") :=
  ⟨by decide, checkpoint_file_double_pth { cfgBase with checkpoint_epoch := some 1 }
    dirsBase none 1 1 "out" "runet-checkpoint-0000.pth.pth" 0 (by decide)⟩

end Upseg

namespace Upseg

/-- C10: with `epochs = 0` the loop body never runs — no train or test batch,
no checkpoint save, no per-epoch telemetry log — yet when a save path exists
the final model artifact `{model_name}.pth` is still written and the
telemetry sink is still closed, with no error. -/
theorem zero_epochs_behavior (cfg : Config) (fs : List String)
    (wandbRun : Option String) (nTrain nTest : Nat) (p : String)
    (he : cfg.epochs = 0) (h1 : cfg.model_name = "runet")
    (h2 : trainDatasetPath cfg ∈ fs) (h3 : testDatasetPath cfg ∈ fs)
    (h4 : cfg.optimizer = "adam")
    (hsp : resolveSavePath cfg.save_path wandbRun = some p) :
    (main cfg fs wandbRun nTrain nTest).2 = none ∧
    (∀ ev ∈ (main cfg fs wandbRun nTrain nTest).1,
      isBatchEvent ev = false ∧ isCheckpointSaveEvent ev = false ∧
      isTelemetryLogEvent ev = false) ∧
    Event.finalModelSave p (cfg.model_name ++ ".pth") ∈
      (main cfg fs wandbRun nTrain nTest).1 ∧
    Event.telemetryFinish ∈ (main cfg fs wandbRun nTrain nTest).1 := by
  rw [main_success_trace cfg fs wandbRun nTrain nTest h1 h2 h3 h4]
  refine ⟨rfl, ?_, ?_, ?_⟩
  · intro ev hev
    simp only [he, List.range_zero, List.flatMap_nil, List.append_nil] at hev
    rw [hsp] at hev
    simp [preEvents, finEvents] at hev
    rcases hev with h | h | h | h | h <;> subst h <;> exact ⟨rfl, rfl, rfl⟩
  · simp [he, hsp, preEvents, finEvents]
  · simp [he, hsp, preEvents, finEvents]

/-- C10 witness: `cfgBase` with zero epochs and save path `out`. -/
theorem zero_epochs_behavior_witness :
    (main { cfgBase with epochs := 0 } dirsBase none 1 1).2 = none ∧
    (∀ ev ∈ (main { cfgBase with epochs := 0 } dirsBase none 1 1).1,
      isBatchEvent ev = false ∧ isCheckpointSaveEvent ev = false ∧
      isTelemetryLogEvent ev = false) ∧
    Event.finalModelSave "out"
        (({ cfgBase with epochs := 0 } : Config).model_name ++ ".pth") ∈
      (main { cfgBase with epochs := 0 } dirsBase none 1 1).1 ∧
    Event.telemetryFinish ∈ (main { cfgBase with epochs := 0 } dirsBase none 1 1).1 :=
  zero_epochs_behavior { cfgBase with epochs := 0 } dirsBase none 1 1 "out"
    (by decide) (by decide) (by decide) (by decide) (by decide) (by decide)

end Upseg

namespace Upseg

/-- C1 (amended): with `train/{in_size}` (or `test/{in_size*scale}`) missing,
`main` raises a configuration error before any batch is processed, before any
checkpoint is saved and before any telemetry **log** or **finish** call — but
after the telemetry **login** and **initialization** calls, which the source
places before the dataset checks (lines 178-198 versus 229-233). -/
theorem missing_dataset_fail_fast (cfg : Config) (fs : List String)
    (wandbRun : Option String) (nTrain nTest : Nat)
    (hd : trainDatasetPath cfg ∉ fs ∨ testDatasetPath cfg ∉ fs) :
    ((main cfg fs wandbRun nTrain nTest).2).isSome = true ∧
    (∀ ev ∈ (main cfg fs wandbRun nTrain nTest).1,
      isBatchEvent ev = false ∧ isCheckpointSaveEvent ev = false ∧
      isTelemetryLogEvent ev = false ∧ ev ≠ Event.telemetryFinish) ∧
    (cfg.model_name = "runet" → ∃ msg,
      (main cfg fs wandbRun nTrain nTest).2 = some ⟨"Exception", msg⟩) := by
  have hng : ¬(cfg.model_name = "runet" ∧ trainDatasetPath cfg ∈ fs ∧
      testDatasetPath cfg ∈ fs ∧ cfg.optimizer = "adam") := by
    rintro ⟨-, ht, hs, -⟩
    rcases hd with hd | hd
    · exact hd ht
    · exact hd hs
  have hft := main_failed_trace cfg fs wandbRun nTrain nTest hng
  refine ⟨hft.2, ?_, ?_⟩
  · intro ev hev
    rw [hft.1] at hev
    exact mem_preEvents _ _ hev
  · intro h1
    by_cases h2 : trainDatasetPath cfg ∈ fs
    · have h3 : testDatasetPath cfg ∉ fs := by
        rcases hd with hd | hd
        · exact absurd h2 hd
        · exact hd
      exact ⟨pathJoin "test" (toString (cfg.in_size * cfg.scale)) ++ " does not exist.",
        by simp [main, h1, h2, h3]⟩
    · exact ⟨pathJoin "train" (toString cfg.in_size) ++ " does not exist.",
        by simp [main, h1, h2]⟩

/-- C1 witness: `cfgBase` against an empty filesystem. -/
theorem missing_dataset_fail_fast_witness :
    (trainDatasetPath cfgBase ∉ ([] : List String) ∨
      testDatasetPath cfgBase ∉ ([] : List String)) ∧
    (((main cfgBase [] none 1 1).2).isSome = true ∧
     (∀ ev ∈ (main cfgBase [] none 1 1).1,
       isBatchEvent ev = false ∧ isCheckpointSaveEvent ev = false ∧
       isTelemetryLogEvent ev = false ∧ ev ≠ Event.telemetryFinish) ∧
     (cfgBase.model_name = "runet" → ∃ msg,
       (main cfgBase [] none 1 1).2 = some ⟨"Exception", msg⟩)) :=
  ⟨by decide, missing_dataset_fail_fast cfgBase [] none 1 1 (by decide)⟩

/-- C1 counterexample: in the very run in which the missing `train/2`
directory makes `main` raise, the telemetry initialization call has already
happened — the trace of events emitted before the raise contains
`telemetryInit` — so the error is *not* raised before every telemetry call,
contradicting the claim as stated. -/
theorem missing_dataset_telemetry_already_called :
    ((main cfgBase [] none 1 1).2).isSome = true ∧
    Event.telemetryInit ∈ (main cfgBase [] none 1 1).1 := by
  constructor
  · decide
  · decide

/-- C6 (amended): an unknown model or optimizer identifier makes the run fail
with a fatal `ValueError` raised before any train or test phase begins; the
exception, however, carries an empty message (the source raises a bare
`ValueError()` / `ValueError`), not a descriptive one. -/
theorem unknown_identifier_fatal (cfg : Config) (fs : List String)
    (wandbRun : Option String) (nTrain nTest : Nat)
    (h : cfg.model_name ≠ "runet" ∨ cfg.optimizer ≠ "adam") :
    ((main cfg fs wandbRun nTrain nTest).2).isSome = true ∧
    (∀ ev ∈ (main cfg fs wandbRun nTrain nTest).1, isBatchEvent ev = false) ∧
    (cfg.model_name ≠ "runet" →
      (main cfg fs wandbRun nTrain nTest).2 = some ⟨"ValueError", ""⟩) ∧
    (cfg.model_name = "runet" → trainDatasetPath cfg ∈ fs →
      testDatasetPath cfg ∈ fs → cfg.optimizer ≠ "adam" →
      (main cfg fs wandbRun nTrain nTest).2 = some ⟨"ValueError", ""⟩) := by
  have hng : ¬(cfg.model_name = "runet" ∧ trainDatasetPath cfg ∈ fs ∧
      testDatasetPath cfg ∈ fs ∧ cfg.optimizer = "adam") := by
    rintro ⟨g1, -, -, g4⟩
    rcases h with h | h
    · exact h g1
    · exact h g4
  have hft := main_failed_trace cfg fs wandbRun nTrain nTest hng
  refine ⟨hft.2, ?_, ?_, ?_⟩
  · intro ev hev
    rw [hft.1] at hev
    exact (mem_preEvents _ _ hev).1
  · intro h1
    simp [main, h1]
  · intro h1 h2 h3 h4
    simp [main, h1, h2, h3, h4]

/-- C6 witness: an unknown optimizer identifier on an otherwise valid
configuration. -/
theorem unknown_identifier_fatal_witness :
    (({ cfgBase with optimizer := "sgd" } : Config).model_name ≠ "runet" ∨
      ({ cfgBase with optimizer := "sgd" } : Config).optimizer ≠ "adam") ∧
    (((main { cfgBase with optimizer := "sgd" } dirsBase none 1 1).2).isSome = true ∧
     (∀ ev ∈ (main { cfgBase with optimizer := "sgd" } dirsBase none 1 1).1,
       isBatchEvent ev = false) ∧
     (({ cfgBase with optimizer := "sgd" } : Config).model_name ≠ "runet" →
       (main { cfgBase with optimizer := "sgd" } dirsBase none 1 1).2 =
         some ⟨"ValueError", ""⟩) ∧
     (({ cfgBase with optimizer := "sgd" } : Config).model_name = "runet" →
       trainDatasetPath { cfgBase with optimizer := "sgd" } ∈ dirsBase →
       testDatasetPath { cfgBase with optimizer := "sgd" } ∈ dirsBase →
       ({ cfgBase with optimizer := "sgd" } : Config).optimizer ≠ "adam" →
       (main { cfgBase with optimizer := "sgd" } dirsBase none 1 1).2 =
         some ⟨"ValueError", ""⟩)) :=
  ⟨by decide, unknown_identifier_fatal { cfgBase with optimizer := "sgd" }
    dirsBase none 1 1 (by decide)⟩

/-- C6 counterexample: with the unknown model identifier `unet` the run does
abort before any phase, but the raised error is a bare `ValueError` with an
empty message — there is no descriptive message, contradicting that part of
the claim. -/
theorem unknown_model_empty_message :
    (main { cfgBase with model_name := "unet" } dirsBase none 1 1).2 =
      some ⟨"ValueError", ""⟩ := by
  decide

end Upseg
